import Mathlib

/-!
Verification of the go-ten project wizard and template materializer.

The definitions below are a shallow embedding of the Go sources:
- `internal/prompts` (the bubbletea wizard `Model`, its `Update`, stage
  handlers, `View`/render functions, `validateProjectName`, `getTargetDir`,
  `generateProject`), and
- `internal/generator` (`ProjectConfig`, `Generate`, `getTemplateFS`,
  `createDirectory`, `copyTemplateFiles`, `copyFile`, `processTemplate`,
  `GetCurrentDirName`).

Ambient effects are made explicit: the current working directory is a
`String` parameter, the disk is an `FSState` value threaded through the
functions, and the embedded template storage is a read-only association
list `Registry` from template-set paths to their walk entries (matching the
design view of the embedded storage as a read-only key-to-bytes lookup).
Go strings are modelled as Lean `String`/`List Char`; the wizard's byte
based cursor arithmetic coincides with character indices on the ASCII
inputs all claims use.  I/O failures of the operating system (permission
errors, disk full) are outside the model: directory creation and file
writes on the model filesystem always succeed, as they would on a healthy
disk.
-/

namespace GoTen

/-! ## String helpers (Go standard library semantics) -/

/-- Characters Go's `unicode.IsSpace` accepts, by code point:
TAB LF VT FF CR SPACE NEL NBSP OGHAM-SP, U+2000..U+200A, LS, PS, NNBSP,
MMSP, IDSP.  Used by `strings.TrimSpace`. -/
def goIsSpace (c : Char) : Bool :=
  c.toNat = 9 || c.toNat = 10 || c.toNat = 11 || c.toNat = 12 || c.toNat = 13 ||
  c.toNat = 32 || c.toNat = 133 || c.toNat = 160 || c.toNat = 5760 ||
  (8192 ≤ c.toNat && c.toNat ≤ 8202) || c.toNat = 8232 || c.toNat = 8233 ||
  c.toNat = 8239 || c.toNat = 8287 || c.toNat = 12288

/-- `strings.TrimSpace`: drop leading and trailing Unicode whitespace. -/
def trimSpace (s : String) : String :=
  String.mk (((s.toList.dropWhile goIsSpace).reverse.dropWhile goIsSpace).reverse)

/-- Membership in the character class `[a-zA-Z0-9_-]` of the validation
regexp, by code point: a..z is 97..122, A..Z is 65..90, 0..9 is 48..57,
underscore is 95, hyphen is 45. -/
def isValidNameChar (c : Char) : Bool :=
  (97 ≤ c.toNat && c.toNat ≤ 122) || (65 ≤ c.toNat && c.toNat ≤ 90) ||
  (48 ≤ c.toNat && c.toNat ≤ 57) || c.toNat = 95 || c.toNat = 45

/-- Semantics of `regexp.MustCompile("^[a-zA-Z0-9_-]+$").MatchString`:
the string is non-empty and every character is in the class. -/
def validNameMatch (s : String) : Bool :=
  !s.toList.isEmpty && s.toList.all isValidNameChar

/-- List-level test that `pre` is an initial segment, used for substring
and suffix checks below. -/
def startsList (pre l : List Char) : Bool :=
  match pre, l with
  | [], _ => true
  | _ :: _, [] => false
  | a :: as, b :: bs => a = b && startsList as bs

/-- Occurrence of `needle` anywhere in `l`. -/
def containsList (needle : List Char) : List Char → Bool
  | [] => needle.isEmpty
  | c :: cs => startsList needle (c :: cs) || containsList needle cs

/-- Substring occurrence on strings (used only to observe rendered views). -/
def strContains (hay needle : String) : Bool :=
  containsList needle.toList hay.toList

/-- `strings.HasSuffix s suffix`. -/
def hasSuffix (s suffix : String) : Bool :=
  startsList suffix.toList.reverse s.toList.reverse

/-- `strings.TrimSuffix s suffix`: cut the suffix when present. -/
def trimSuffix (s suffix : String) : String :=
  if hasSuffix s suffix then
    String.mk (s.toList.take (s.toList.length - suffix.toList.length))
  else s

/-! ## Path helpers (Go `path/filepath`, Unix separator) -/

/-- Split a character list on `/` (like `strings.Split` on the
separator): empty components are kept. -/
def splitSlash : List Char → List (List Char)
  | [] => [[]]
  | c :: rest =>
    if c = '/' then [] :: splitSlash rest
    else
      match splitSlash rest with
      | [] => [[c]]
      | p :: ps => (c :: p) :: ps

/-- Component processing of `filepath.Clean`: skip empty and `.`
components, let `..` cancel a preceding component (kept when the path is
not rooted and nothing is left to cancel, dropped at the root). -/
def cleanComponents (rooted : Bool) (acc : List (List Char)) :
    List (List Char) → List (List Char)
  | [] => acc.reverse
  | e :: rest =>
    if e = [] ∨ e = ['.'] then cleanComponents rooted acc rest
    else if e = ['.', '.'] then
      match acc with
      | [] =>
        if rooted then cleanComponents rooted [] rest
        else cleanComponents rooted [e] rest
      | a :: as =>
        if a = ['.', '.'] then cleanComponents rooted (e :: acc) rest
        else cleanComponents rooted as rest
    else cleanComponents rooted (e :: acc) rest

/-- Join components back with `/`. -/
def joinComps : List (List Char) → String
  | [] => ""
  | [e] => String.mk e
  | e :: rest => String.mk e ++ "/" ++ joinComps rest

/-- `filepath.Clean` for Unix paths. -/
def cleanPath (p : String) : String :=
  match p.toList with
  | [] => "."
  | c :: cs =>
    let rooted := c = '/'
    let comps := cleanComponents rooted [] (splitSlash (c :: cs))
    let res := (if rooted then "/" else "") ++ joinComps comps
    if res = "" then "." else res

/-- `filepath.Join` restricted to the two-element calls the generator
makes: non-empty elements joined with `/`, then cleaned. -/
def joinPath (a b : String) : String :=
  if a = "" && b = "" then ""
  else if a = "" then cleanPath b
  else if b = "" then cleanPath a
  else cleanPath (a ++ "/" ++ b)

/-- `filepath.Base` for Unix paths: empty path gives `.`, trailing
slashes are stripped, the last element is returned, an all-slash path
gives `/`. -/
def filepathBase (path : String) : String :=
  match path.toList with
  | [] => "."
  | c :: cs =>
    let stripped := ((c :: cs).reverse.dropWhile (fun x => x = '/')).reverse
    let base := (stripped.reverse.takeWhile (fun x => x ≠ '/')).reverse
    if base = [] then "/" else String.mk base

/-- `fs.ValidPath` (package `io/fs`): `.` or slash-separated components,
each non-empty and different from `.` and `..`. -/
def validFSPath (p : String) : Bool :=
  if p = "." then true
  else (splitSlash p.toList).all
    (fun e => !e.isEmpty && e ≠ ['.'] && e ≠ ['.', '.'])

/-! ## The template engine (Go `text/template` on the fragment used)

The generator renders templates with `text/template`.  On the fragment the
project's templates use — literal text and `{{.Field}}` actions over the
flat `ProjectConfig` struct, with no functions, pipelines, or nested
fields — its behaviour is: `{{` opens an action wherever it occurs, the
action runs to the first `}}` (missing `}}` is a parse error), surrounding
spaces inside the action are skipped, a leading `.` makes a field
reference (resolved against `ProjectConfig` at execution time; an unknown
field is an execution error), and a bare identifier is a call to an
undefined function, which is a parse error.  Parsing is the first pass,
execution the second, exactly as `processTemplate` calls `Parse` then
`Execute`. -/

/-- `generator.ProjectConfig`. -/
structure ProjectConfig where
  ProjectName : String
  ModuleName : String
  AppType : String
  Package : String
  TargetDir : String
  UseCurrentDir : Bool
deriving DecidableEq, Repr

/-- A parsed template node: a literal character or a field action. -/
inductive TNode where
  | text (c : Char)
  | field (name : String)
deriving DecidableEq, Repr

/-- Classify the raw contents of one `{{ ... }}` action. -/
def classifyAction (act : List Char) : Except String TNode :=
  let a := (act.dropWhile (fun c => c = ' ' || c = '\t' || c = '\n' || c = '\r')).reverse
    |>.dropWhile (fun c => c = ' ' || c = '\t' || c = '\n' || c = '\r') |>.reverse
  match a with
  | [] => Except.error "missing value for command"
  | c :: rest =>
    if c = '.' then Except.ok (TNode.field (String.mk rest))
    else Except.error ("function \x22" ++ String.mk (c :: rest) ++ "\x22 not defined")

/-- One-pass template scanner: `none` mode is literal text, `some acc`
accumulates the characters of an open action (in reverse).  `\x7b\x7b`
opens an action wherever it occurs in text mode; `\x7d\x7d` closes it; a
template ending inside an action is the `unclosed action` parse error. -/
def parseTM : Option (List Char) → List Char → Except String (List TNode)
  | none, [] => Except.ok []
  | none, [c] => Except.ok [TNode.text c]
  | none, c1 :: c2 :: rest =>
    if c1 = '\x7b' ∧ c2 = '\x7b' then parseTM (some []) rest
    else do
      let ns ← parseTM none (c2 :: rest)
      Except.ok (TNode.text c1 :: ns)
  | some _, [] => Except.error "unclosed action"
  | some _, [_] => Except.error "unclosed action"
  | some acc, c1 :: c2 :: rest =>
    if c1 = '\x7d' ∧ c2 = '\x7d' then do
      let node ← classifyAction acc.reverse
      let ns ← parseTM none rest
      Except.ok (node :: ns)
    else parseTM (some (c1 :: acc)) (c2 :: rest)

/-- Field lookup on `ProjectConfig` at execution time; the boolean field
prints as `true`/`false` like Go's default formatting. -/
def fieldValue (config : ProjectConfig) (f : String) : Option String :=
  if f = "ProjectName" then some config.ProjectName
  else if f = "ModuleName" then some config.ModuleName
  else if f = "AppType" then some config.AppType
  else if f = "Package" then some config.Package
  else if f = "TargetDir" then some config.TargetDir
  else if f = "UseCurrentDir" then
    some (if config.UseCurrentDir then "true" else "false")
  else none

/-- Execute parsed nodes against the configuration, aborting at the first
unresolvable field. -/
def execTemplate (config : ProjectConfig) : List TNode → Except String (List Char)
  | [] => Except.ok []
  | TNode.text c :: ns => do
    let out ← execTemplate config ns
    Except.ok (c :: out)
  | TNode.field f :: ns =>
    match fieldValue config f with
    | none =>
      Except.error ("can\x27t evaluate field " ++ f ++ " in type generator.ProjectConfig")
    | some v => do
      let out ← execTemplate config ns
      Except.ok (v.toList ++ out)

/-- `generator.processTemplate`: parse, then execute. -/
def processTemplate (templateContent : String) (config : ProjectConfig) :
    Except String String :=
  match parseTM none templateContent.toList with
  | Except.error e => Except.error ("failed to parse template: " ++ e)
  | Except.ok nodes =>
    match execTemplate config nodes with
    | Except.error e => Except.error ("failed to execute template: " ++ e)
    | Except.ok out => Except.ok (String.mk out)

/-- Whether a `\x7b\x7b` action opener occurs anywhere, i.e. the content
holds a placeholder (or at least starts one). -/
def hasOpenDelim : List Char → Bool
  | c1 :: c2 :: rest => (c1 = '\x7b' && c2 = '\x7b') || hasOpenDelim (c2 :: rest)
  | _ => false

/-! ## The materializer (`internal/generator`) -/

/-- One entry of a template set, in the order `fs.WalkDir` visits it
(lexical, parents before children), with paths relative to the set root. -/
inductive TEntry where
  | dir (path : String)
  | file (path : String) (content : String)
deriving DecidableEq, Repr

/-- The embedded template storage: template-set path to walk entries.
`embed.FS` is read-only, so a plain association list. -/
def Registry := List (String × List TEntry)

/-- The disk: created directories and written files (path to content). -/
structure FSState where
  dirs : List String
  files : List (String × String)
deriving DecidableEq, Repr

/-- `generator.createDirectory`: a no-op when the directory exists,
otherwise it is created (`os.MkdirAll`). -/
def createDir (fs : FSState) (path : String) : FSState :=
  if fs.dirs.contains path then fs else { fs with dirs := fs.dirs ++ [path] }

/-- Association-list update used by `os.WriteFile` (truncating write). -/
def updateAssoc : List (String × String) → String → String → List (String × String)
  | [], p, c => [(p, c)]
  | (q, d) :: rest, p, c =>
    if q = p then (p, c) :: rest else (q, d) :: updateAssoc rest p c

/-- `os.WriteFile` on the model disk. -/
def writeFile (fs : FSState) (path content : String) : FSState :=
  { fs with files := updateAssoc fs.files path content }

/-- Lookup of a template set by its path. -/
def lookupReg : Registry → String → Option (List TEntry)
  | [], _ => none
  | (k, v) :: rest, p => if k = p then some v else lookupReg rest p

/-- `generator.getTemplateFS`.  `fs.Sub` on an `embed.FS` (which does not
implement `fs.SubFS`) fails only when the sub-path is not a valid
`io/fs` path, so the `template not found` branch triggers only for
syntactically invalid paths; `fs.ReadDir` of the sub-filesystem fails
exactly when the directory does not exist in the embedded storage, and
returns the (possibly empty) entry list without error otherwise.  The
function propagates the `ReadDir` error and performs no emptiness check
on the returned listing. -/
def getTemplateFS (reg : Registry) (appType packageName : String) :
    Except String (List TEntry) :=
  let templatePath := "templates/" ++ appType ++ "-" ++ packageName
  if !validFSPath templatePath then
    Except.error ("template not found: " ++ templatePath ++
      " (available templates: check templates/ directory)")
  else
    match lookupReg reg templatePath with
    | none => Except.error ("template directory is empty or invalid: " ++ templatePath)
    | some entries => Except.ok entries

/-- `generator.copyFile`: templates (suffix `.tmpl`) are processed and the
suffix is stripped from the target; other files are copied untouched.
Returns the disk together with `none` on success or `some err`. -/
def copyFile (sourcePath content targetPath : String) (config : ProjectConfig)
    (fs : FSState) : FSState × Option String :=
  if hasSuffix sourcePath ".tmpl" then
    match processTemplate content config with
    | Except.error e =>
      (fs, some ("failed to process template " ++ sourcePath ++ ": " ++ e))
    | Except.ok processed =>
      (writeFile fs (trimSuffix targetPath ".tmpl") processed, none)
  else (writeFile fs targetPath content, none)

/-- `generator.copyTemplateFiles`: walk the entries in order, creating
directories and copying files; the first failing file aborts the walk,
leaving the earlier writes in place. -/
def copyTemplateFiles (entries : List TEntry) (targetDir : String)
    (config : ProjectConfig) (fs : FSState) : FSState × Option String :=
  match entries with
  | [] => (fs, none)
  | TEntry.dir d :: rest =>
    copyTemplateFiles rest targetDir config (createDir fs (joinPath targetDir d))
  | TEntry.file p content :: rest =>
    match copyFile p content (joinPath targetDir p) config fs with
    | (fs1, some e) => (fs1, some e)
    | (fs1, none) => copyTemplateFiles rest targetDir config fs1

/-- `generator.Generate`: create the target directory unless generating in
place, resolve the template set, copy its files.  Returns the final disk
and `none` on success or `some err`; on error the disk holds whatever was
already created (non-atomic, as the source). -/
def Generate (reg : Registry) (fs : FSState) (config : ProjectConfig) :
    FSState × Option String :=
  let fs1 := if config.UseCurrentDir then fs else createDir fs config.TargetDir
  match getTemplateFS reg config.AppType config.Package with
  | Except.error e => (fs1, some ("failed to get template filesystem: " ++ e))
  | Except.ok entries =>
    match copyTemplateFiles entries config.TargetDir config fs1 with
    | (fs2, some e) => (fs2, some ("failed to copy template files: " ++ e))
    | (fs2, none) => (fs2, none)

/-- `generator.GetCurrentDirName` with the working directory passed in
(`os.Getwd` made explicit): the base name of the directory, failing at the
filesystem root. -/
def GetCurrentDirName (cwd : String) : Except String String :=
  let dirName := filepathBase cwd
  if dirName = "." ∨ dirName = "/" then
    Except.error "cannot determine project name from root directory"
  else Except.ok dirName

/-! ## The wizard (`internal/prompts`) -/

/-- `prompts.Stage`. -/
inductive Stage where
  | stage1ProjectName
  | stage2AppType
  | stage3Package
  | stage4Summary
  | stage5Success
deriving DecidableEq, Repr

/-- A terminal key event (`tea.KeyMsg`) restricted to the keys the wizard
reads.  Printable keys arrive as `runes`; `q`, `j`, `k` are rune keys. -/
inductive KeyMsg where
  | enter
  | backspace
  | left
  | right
  | up
  | down
  | runes (s : String)
  | ctrlC
deriving DecidableEq, Repr

/-- `tea.KeyMsg.String()` for the keys above. -/
def keyString : KeyMsg → String
  | KeyMsg.enter => "enter"
  | KeyMsg.backspace => "backspace"
  | KeyMsg.left => "left"
  | KeyMsg.right => "right"
  | KeyMsg.up => "up"
  | KeyMsg.down => "down"
  | KeyMsg.runes s => s
  | KeyMsg.ctrlC => "ctrl+c"

/-- `prompts.Model`. -/
structure Model where
  currentStage : Stage
  projectName : String
  inputValue : String
  inputCursor : Nat
  appTypes : List String
  appTypeCursor : Nat
  selectedAppType : String
  packages : List String
  packageCursor : Nat
  selectedPackage : String
  quitting : Bool
  generationError : Option String
  generationSuccess : Bool
deriving DecidableEq, Repr

/-- `prompts.NewModel` (unlisted fields take Go zero values). -/
def NewModel : Model :=
  { currentStage := Stage.stage1ProjectName
    projectName := ""
    inputValue := ""
    inputCursor := 0
    appTypes := ["Web API"]
    appTypeCursor := 0
    selectedAppType := ""
    packages := ["stdlib"]
    packageCursor := 0
    selectedPackage := ""
    quitting := false
    generationError := none
    generationSuccess := false }

/-- `Model.validateProjectName`: `none` means the name is accepted,
`some msg` is the returned error. -/
def validateProjectName (name : String) : Option String :=
  if trimSpace name = "" then some "project name cannot be empty"
  else if name = "." then none
  else if validNameMatch name then none
  else some "project name must contain only letters, numbers, hyphens, and underscores"

/-- `Model.getTargetDir`. -/
def getTargetDir (m : Model) : String :=
  if m.projectName = "." then "./" else "./" ++ m.projectName ++ "/"

/-- `Model.updateStage1` (project-name input), switching on the key type.
Go's byte-index cursor arithmetic is character-index here (ASCII). -/
def updateStage1 (m : Model) (msg : KeyMsg) : Model :=
  match msg with
  | KeyMsg.enter =>
    match validateProjectName m.inputValue with
    | some err => { m with generationError := some err }
    | none => { m with projectName := m.inputValue, currentStage := Stage.stage2AppType }
  | KeyMsg.backspace =>
    if m.inputValue.toList.length > 0 then
      if m.inputCursor > 0 then
        { m with
          inputValue := String.mk (m.inputValue.toList.take (m.inputCursor - 1) ++
            m.inputValue.toList.drop m.inputCursor)
          inputCursor := m.inputCursor - 1 }
      else m
    else m
  | KeyMsg.left => if m.inputCursor > 0 then { m with inputCursor := m.inputCursor - 1 } else m
  | KeyMsg.right =>
    if m.inputCursor < m.inputValue.toList.length then
      { m with inputCursor := m.inputCursor + 1 }
    else m
  | KeyMsg.runes s =>
    { m with
      inputValue := String.mk (m.inputValue.toList.take m.inputCursor ++ s.toList ++
        m.inputValue.toList.drop m.inputCursor)
      inputCursor := m.inputCursor + s.toList.length }
  | _ => m

/-- `Model.updateStage2` (application type), switching on `msg.String()`.
The cursor never leaves the option bounds, so the Go indexing
`appTypes[appTypeCursor]` is total here (`getD` with an unreachable
default). -/
def updateStage2 (m : Model) (msg : KeyMsg) : Model :=
  if keyString msg = "up" ∨ keyString msg = "k" then
    if m.appTypeCursor > 0 then { m with appTypeCursor := m.appTypeCursor - 1 } else m
  else if keyString msg = "down" ∨ keyString msg = "j" then
    if m.appTypeCursor < m.appTypes.length - 1 then
      { m with appTypeCursor := m.appTypeCursor + 1 }
    else m
  else if keyString msg = "enter" then
    { m with
      selectedAppType := m.appTypes.getD m.appTypeCursor ""
      currentStage := Stage.stage3Package }
  else m

/-- `Model.updateStage3` (package selection), same shape as stage 2. -/
def updateStage3 (m : Model) (msg : KeyMsg) : Model :=
  if keyString msg = "up" ∨ keyString msg = "k" then
    if m.packageCursor > 0 then { m with packageCursor := m.packageCursor - 1 } else m
  else if keyString msg = "down" ∨ keyString msg = "j" then
    if m.packageCursor < m.packages.length - 1 then
      { m with packageCursor := m.packageCursor + 1 }
    else m
  else if keyString msg = "enter" then
    { m with
      selectedPackage := m.packages.getD m.packageCursor ""
      currentStage := Stage.stage4Summary }
  else m

/-- The configuration `Model.generateProject` derives before calling
`generator.Generate`: for the sentinel `.` the name comes from the
working directory and generation happens in place. -/
def deriveConfig (m : Model) (cwd : String) : Except String ProjectConfig :=
  if m.projectName = "." then
    match GetCurrentDirName cwd with
    | Except.error e => Except.error ("failed to get current directory name: " ++ e)
    | Except.ok currentDir =>
      Except.ok
        { ProjectName := currentDir
          ModuleName := currentDir
          AppType := "web-api"
          Package := m.selectedPackage
          TargetDir := "./"
          UseCurrentDir := true }
  else
    Except.ok
      { ProjectName := m.projectName
        ModuleName := m.projectName
        AppType := "web-api"
        Package := m.selectedPackage
        TargetDir := "./" ++ m.projectName ++ "/"
        UseCurrentDir := false }

/-- `Model.generateProject`: derive the configuration and run the
generator (the Go function body, split into the derivation above and the
`Generate` call). -/
def generateProject (m : Model) (cwd : String) (reg : Registry) (fs : FSState) :
    FSState × Option String :=
  match deriveConfig m cwd with
  | Except.error e => (fs, some e)
  | Except.ok config => Generate reg fs config

/-- Result of one `Update` step: the new model, whether a `tea.Quit`
command was issued, and the disk (only stage 4 touches it). -/
structure StepResult where
  model : Model
  quit : Bool
  fs : FSState
deriving DecidableEq, Repr

/-- `Model.updateStage4` (summary): `enter` runs the generator; an error
is recorded and the stage kept, success advances to the success stage. -/
def updateStage4 (m : Model) (msg : KeyMsg) (cwd : String) (reg : Registry)
    (fs : FSState) : StepResult :=
  if keyString msg = "enter" then
    match generateProject m cwd reg fs with
    | (fs1, some err) => ⟨{ m with generationError := some err }, false, fs1⟩
    | (fs1, none) =>
      ⟨{ m with generationSuccess := true, currentStage := Stage.stage5Success }, false, fs1⟩
  else ⟨m, false, fs⟩

/-- `Model.Update`.  The outer switch matches `q`/`ctrl+c` first: in any
stage but success they quit; in the success stage the case body does
nothing and the switch ends, so those keys fall through to `return m, nil`
and never reach `updateStage5`.  All other keys go to the current stage's
handler. -/
def Update (m : Model) (msg : KeyMsg) (cwd : String) (reg : Registry)
    (fs : FSState) : StepResult :=
  if keyString msg = "q" ∨ keyString msg = "ctrl+c" then
    if m.currentStage ≠ Stage.stage5Success then
      ⟨{ m with quitting := true }, true, fs⟩
    else ⟨m, false, fs⟩
  else
    match m.currentStage with
    | Stage.stage1ProjectName => ⟨updateStage1 m msg, false, fs⟩
    | Stage.stage2AppType => ⟨updateStage2 m msg, false, fs⟩
    | Stage.stage3Package => ⟨updateStage3 m msg, false, fs⟩
    | Stage.stage4Summary => updateStage4 m msg cwd reg fs
    | Stage.stage5Success => ⟨{ m with quitting := true }, true, fs⟩

/-! ## Rendering (`View` and the per-stage render functions)

Every render method in the source has a value receiver, so an assignment
to a field inside it mutates the method's local copy of the model, which
is discarded when the method returns its string.  `renderStage1` is
modelled with its final local copy made visible as the second component;
`View` (also a value receiver) returns only the string, exactly what the
bubbletea runtime sees. -/

/-- The input-field rendering loop of `renderStage1`: each character,
with a `|` after the one at the cursor index. -/
def renderInput : List Char → Nat → Nat → String
  | [], _, _ => ""
  | c :: rest, i, cur =>
    (if i = cur then String.mk [c] ++ "|" else String.mk [c]) ++
      renderInput rest (i + 1) cur

/-- `Model.renderStage1`: prompt, input with cursor, the error when one is
pending (after which the local copy's error is set to `nil`), footer. -/
def renderStage1 (m : Model) : String × Model :=
  let base := "Enter your project name (or \x27.\x27 for current directory):\n\n> " ++
    renderInput m.inputValue.toList 0 m.inputCursor ++
    (if m.inputCursor = m.inputValue.toList.length then "|" else "")
  match m.generationError with
  | some err =>
    (base ++ "\n\nError: " ++ err ++ "\n\n(Enter to submit, q to quit)",
      { m with generationError := none })
  | none => (base ++ "\n\n(Enter to submit, q to quit)", m)

/-- The option-list rendering loop shared (textually) by `renderStage2`
and `renderStage3`: cursor marker and bold highlight on the selected
line. -/
def renderOptions : List String → Nat → Nat → String
  | [], _, _ => ""
  | opt :: rest, i, cur =>
    (if cur = i then "> \x1b[1m" ++ opt ++ "\x1b[0m\n" else "  " ++ opt ++ "\n") ++
      renderOptions rest (i + 1) cur

/-- `Model.renderStage2`. -/
def renderStage2 (m : Model) : String :=
  "Select application type:\n\n" ++ renderOptions m.appTypes 0 m.appTypeCursor ++
    "\n(Use arrow keys to navigate, press Enter to continue, q to quit)"

/-- `Model.renderStage3`. -/
def renderStage3 (m : Model) : String :=
  "Select package:\n\n" ++ renderOptions m.packages 0 m.packageCursor ++
    "\n(Use arrow keys to navigate, press Enter to continue, q to quit)"

/-- `Model.renderStage4`: the summary, with the pending error shown (and
not cleared) and the retry footer when one exists. -/
def renderStage4 (m : Model) : String :=
  let s := "Project Configuration Summary\n\n" ++
    "Name: \x1b[1m" ++ m.projectName ++ "\x1b[0m\n" ++
    "Type: \x1b[1m" ++ m.selectedAppType ++ "\x1b[0m\n" ++
    "Package: \x1b[1m" ++ m.selectedPackage ++ "\x1b[0m\n" ++
    "Location: \x1b[1m" ++ getTargetDir m ++ "\x1b[0m\n"
  match m.generationError with
  | some err =>
    s ++ "\n\x1b[31mError: " ++ err ++ "\x1b[0m\n" ++
      "\nPress Enter to retry or \x27q\x27 to quit"
  | none => s ++ "\nPress Enter to generate or \x27q\x27 to quit"

/-- `Model.renderStage5`. -/
def renderStage5 (m : Model) : String :=
  "\x1b[32m✓ Project created successfully!\x1b[0m\n\n" ++
    "Next steps:\n" ++
    (if m.projectName ≠ "." then "cd " ++ getTargetDir m ++ "\n" else "") ++
    "go mod tidy\n" ++ "go run ./cmd/api\n\n" ++
    "Your Web API is ready at: " ++ getTargetDir m ++ "\n" ++
    "\nPress any key to exit"

/-- `Model.View`: empty when quitting, else the current stage's screen.
The model mutated inside `renderStage1` is the method's local copy and is
dropped here, as Go drops it. -/
def View (m : Model) : String :=
  if m.quitting then ""
  else
    match m.currentStage with
    | Stage.stage1ProjectName => (renderStage1 m).1
    | Stage.stage2AppType => renderStage2 m
    | Stage.stage3Package => renderStage3 m
    | Stage.stage4Summary => renderStage4 m
    | Stage.stage5Success => renderStage5 m

/-- One frame of the bubbletea driver's render step: the program retains
the same model it rendered, because `View` is a value-receiver method
returning only a string. -/
def viewStep (m : Model) : String × Model :=
  (View m, m)

/-! ## Concrete fixtures for the scenario claims -/

/-- Fixture: a completed session at the Summary stage whose package choice
`nope` resolves to no template set. -/
def summaryNopeModel : Model :=
  { NewModel with currentStage := Stage.stage4Summary, projectName := "demo", selectedAppType := "Web API", selectedPackage := "nope" }

/-- Fixture: a session at the Success stage after a generation. -/
def successModel : Model :=
  { NewModel with currentStage := Stage.stage5Success, generationSuccess := true, projectName := "demo", selectedAppType := "Web API", selectedPackage := "stdlib" }

/-- Fixture: a NameInput-stage session with a pending error. -/
def errorStage1Model : Model :=
  { NewModel with generationError := some "boom" }

/-- Fixture: a NameInput-stage session holding the valid buffer `demo`. -/
def demoBufferModel : Model :=
  { NewModel with inputValue := "demo", inputCursor := 4 }

/-- Fixture: a NameInput-stage session holding the invalid buffer `a b`. -/
def invalidBufferModel : Model :=
  { NewModel with inputValue := "a b", inputCursor := 3 }

/-- Fixture: a session that confirmed the plain name `demo`. -/
def demoModel : Model :=
  { NewModel with projectName := "demo", selectedPackage := "stdlib" }

/-- Fixture: a session that confirmed the sentinel `.`. -/
def dotModel : Model :=
  { NewModel with projectName := ".", selectedPackage := "stdlib" }

/-- Fixture: the configuration of the C2 spec scenario. -/
def demoConfig : ProjectConfig :=
  { ProjectName := "demo", ModuleName := "demo", AppType := "web-api", Package := "stdlib", TargetDir := "./demo/", UseCurrentDir := false }

/-- Fixture: the configuration `summaryNopeModel` derives. -/
def nopeConfig : ProjectConfig :=
  { ProjectName := "demo", ModuleName := "demo", AppType := "web-api", Package := "nope", TargetDir := "./demo/", UseCurrentDir := false }

/-! ## Helper lemmas -/

theorem data_append (a b : String) : (a ++ b).data = a.data ++ b.data := by
  cases a; cases b; rfl

theorem validChar_not_space (c : Char) (h : isValidNameChar c = true) :
    goIsSpace c = false := by
  simp only [isValidNameChar, Bool.or_eq_true, Bool.and_eq_true, decide_eq_true_eq] at h
  cases hgs : goIsSpace c with
  | false => rfl
  | true =>
    exfalso
    simp only [goIsSpace, Bool.or_eq_true, Bool.and_eq_true, decide_eq_true_eq] at hgs
    omega

theorem dropWhile_eq_self_of_none (p : Char → Bool) (l : List Char)
    (h : ∀ x ∈ l, p x = false) : l.dropWhile p = l := by
  cases l with
  | nil => rfl
  | cons c cs =>
    have hc : p c = false := h c (by simp)
    simp [List.dropWhile_cons, hc]

theorem trimSpace_of_all_valid (name : String)
    (h : name.toList.all isValidNameChar = true) : trimSpace name = name := by
  have hns : ∀ x ∈ name.toList, goIsSpace x = false := fun x hx =>
    validChar_not_space x (List.all_eq_true.mp h x hx)
  unfold trimSpace
  rw [dropWhile_eq_self_of_none goIsSpace name.toList hns]
  rw [dropWhile_eq_self_of_none goIsSpace name.toList.reverse
        (by intro x hx; exact hns x (List.mem_reverse.mp hx))]
  rw [List.reverse_reverse]
  rfl

theorem mk_eq_empty_iff (l : List Char) : String.mk l = "" ↔ l = [] := by
  constructor
  · intro h
    have := congrArg String.data h
    simpa using this
  · rintro rfl; rfl

theorem toList_eq_nil_iff (s : String) : s.toList = [] ↔ s = "" := by
  constructor
  · intro h
    cases s with
    | mk data => simpa [String.toList] using congrArg String.mk h
  · rintro rfl; rfl

theorem parseTM_no_delim (cs : List Char) (h : hasOpenDelim cs = false) :
    parseTM none cs = Except.ok (cs.map TNode.text) := by
  induction cs with
  | nil => rfl
  | cons c rest ih =>
    cases rest with
    | nil => rfl
    | cons c2 rest2 =>
      have hsplit : (¬c = '\x7b' ∨ ¬c2 = '\x7b') ∧ hasOpenDelim (c2 :: rest2) = false := by
        simpa only [hasOpenDelim, Bool.or_eq_false_iff, Bool.and_eq_false_iff,
          decide_eq_false_iff_not] using h
      simp only [parseTM]
      rw [if_neg (by tauto), ih hsplit.2]
      rfl

theorem execTemplate_map_text (config : ProjectConfig) (cs : List Char) :
    execTemplate config (cs.map TNode.text) = Except.ok cs := by
  induction cs with
  | nil => rfl
  | cons c rest ih =>
    simp only [List.map_cons, execTemplate, ih]
    rfl

theorem processTemplate_no_delim (content : String) (config : ProjectConfig)
    (h : hasOpenDelim content.toList = false) :
    processTemplate content config = Except.ok content := by
  unfold processTemplate
  rw [parseTM_no_delim content.toList h]
  simp only [execTemplate_map_text]
  rfl

theorem createDir_files (fs : FSState) (p : String) :
    (createDir fs p).files = fs.files := by
  unfold createDir
  split <;> rfl

/-! ## Claims -/

/-- C1: `validateProjectName` accepts a string iff it equals `"."` or
matches `^[a-zA-Z0-9_-]+$` in full (non-empty and every character in the
allow-list); all other strings — empty, whitespace-only, or containing a
character outside the class — are rejected with an error. -/
theorem c1_validate_allowlist (name : String) :
    validateProjectName name = none ↔
      (name = "." ∨ (name ≠ "" ∧ name.toList.all isValidNameChar = true)) := by
  constructor
  · intro h
    unfold validateProjectName at h
    split_ifs at h with h1 h2 h3
    · left; exact h2
    · right
      refine ⟨?_, ?_⟩
      · intro hempty
        subst hempty
        simp [trimSpace] at h1
      · have := h3
        simp only [validNameMatch, Bool.and_eq_true] at this
        exact this.2
  · intro h
    rcases h with hdot | ⟨hne, hall⟩
    · subst hdot
      decide
    · have htrim : trimSpace name = name := trimSpace_of_all_valid name hall
      have hmatch : validNameMatch name = true := by
        cases hl : name.toList with
        | nil => exact absurd ((toList_eq_nil_iff name).mp hl) hne
        | cons c cs =>
          have hl' : name.data = c :: cs := hl
          rw [hl] at hall
          simp only [validNameMatch, String.toList, hl', List.isEmpty_cons,
            Bool.not_false, Bool.true_and]
          exact hall
      unfold validateProjectName
      rw [htrim]
      split_ifs with h1 h2
      all_goals first
        | rfl
        | exact absurd h1 hne

/-- C2 (counterexample): on the exact spec scenario — `demoConfig` against
a set holding `go.mod.tmpl` whose content is `module` followed by
`ProjectName` wrapped in double braces but with no leading dot —
materialization does NOT succeed and no file is written: a bare
identifier in an action is an undefined template function, a parse error,
so the claimed `go.mod` never appears. -/
theorem c2_scenario_fails :
    (Generate [("templates/web-api-stdlib", [TEntry.file "go.mod.tmpl" "module \x7b\x7bProjectName\x7d\x7d"])] ⟨[], []⟩ demoConfig).1.files = [] ∧
    (Generate [("templates/web-api-stdlib", [TEntry.file "go.mod.tmpl" "module \x7b\x7bProjectName\x7d\x7d"])] ⟨[], []⟩ demoConfig).2 ≠ none := by
  constructor
  · rfl
  · decide

/-- C2 (amended): the same scenario with the template syntax the engine
and the repository's own templates actually use — `module` followed by
`.ProjectName` wrapped in double braces — succeeds and writes exactly one
file, `demo/go.mod` (the cleaned form of ./demo/go.mod), containing
exactly `module demo`, with the `.tmpl` suffix stripped. -/
theorem c2_amended_scenario :
    Generate [("templates/web-api-stdlib", [TEntry.file "go.mod.tmpl" "module \x7b\x7b.ProjectName\x7d\x7d"])] ⟨[], []⟩ demoConfig
      = (⟨["./demo/"], [("demo/go.mod", "module demo")]⟩, none) := by
  rfl

/-- C3 (counterexample): confirming the Summary stage on a configuration
whose (appType, packageVariant) pair resolves to no template set does
create something on disk — `Generate` creates the target directory before
resolving the template set — so "creates no files or directories" is
false, even though the session stays in Summary with an error. -/
theorem c3_creates_target_directory :
    (Update summaryNopeModel KeyMsg.enter "/home/user" [] ⟨[], []⟩).fs.dirs = ["./demo/"] ∧
    (["./demo/"] : List String) ≠ [] := by
  constructor
  · rfl
  · decide

/-- C3 (amended): for every Summary-stage session whose derived
configuration has a (appType, packageVariant) pair that does not resolve
to a template set, confirming leaves the session in the Summary stage with
a non-empty error recorded, and the materializer writes no files — though
the target directory may already have been created, since directory
creation precedes template resolution when useCurrentDirectory is
false. -/
theorem c3_amended_summary_error (m : Model) (cwd : String) (reg : Registry)
    (fs : FSState) (cfg : ProjectConfig) (e : String)
    (hst : m.currentStage = Stage.stage4Summary)
    (hcfg : deriveConfig m cwd = Except.ok cfg)
    (hres : getTemplateFS reg cfg.AppType cfg.Package = Except.error e) :
    (Update m KeyMsg.enter cwd reg fs).model.currentStage = Stage.stage4Summary ∧
    (∃ msg, (Update m KeyMsg.enter cwd reg fs).model.generationError = some msg ∧
      msg ≠ "") ∧
    (Update m KeyMsg.enter cwd reg fs).fs.files = fs.files := by
  have hgen0 : generateProject m cwd reg fs = Generate reg fs cfg := by
    unfold generateProject
    rw [hcfg]
  have hgen : generateProject m cwd reg fs =
      ((if cfg.UseCurrentDir then fs else createDir fs cfg.TargetDir),
        some ("failed to get template filesystem: " ++ e)) := by
    rw [hgen0]
    unfold Generate
    rw [hres]
  have hstep : Update m KeyMsg.enter cwd reg fs = updateStage4 m KeyMsg.enter cwd reg fs := by
    unfold Update
    rw [if_neg (by simp [keyString]), hst]
  have hstep2 : updateStage4 m KeyMsg.enter cwd reg fs =
      ⟨{ m with generationError := some ("failed to get template filesystem: " ++ e) },
        false, (if cfg.UseCurrentDir then fs else createDir fs cfg.TargetDir)⟩ := by
    unfold updateStage4
    rw [if_pos (show keyString KeyMsg.enter = "enter" from rfl), hgen]
  rw [hstep, hstep2]
  refine ⟨hst, ⟨"failed to get template filesystem: " ++ e, rfl, ?_⟩, ?_⟩
  · intro heq
    have hdata := congrArg String.data heq
    rw [data_append] at hdata
    rw [show ("".data : List Char) = [] from rfl] at hdata
    have hnil := List.append_eq_nil.mp hdata
    exact absurd hnil.1 (by decide)
  · cases huse : cfg.UseCurrentDir with
    | false => simp [createDir_files]
    | true => rfl

/-- C3 (amended) witness: `summaryNopeModel` against an empty registry. -/
theorem c3_amended_summary_error_witness :
    summaryNopeModel.currentStage = Stage.stage4Summary ∧
    (Update summaryNopeModel KeyMsg.enter "/home/user" [] ⟨[], []⟩).model.currentStage
      = Stage.stage4Summary ∧
    (∃ msg, (Update summaryNopeModel KeyMsg.enter "/home/user" [] ⟨[], []⟩).model.generationError
      = some msg ∧ msg ≠ "") ∧
    (Update summaryNopeModel KeyMsg.enter "/home/user" [] ⟨[], []⟩).fs.files
      = (⟨[], []⟩ : FSState).files := by
  have h := c3_amended_summary_error summaryNopeModel "/home/user" [] ⟨[], []⟩ nopeConfig
    "template directory is empty or invalid: templates/web-api-nope" rfl rfl rfl
  exact ⟨rfl, h.1, h.2.1, h.2.2⟩

/-- C4 (counterexample): with the sentinel `.` confirmed and the working
directory /home/sandbox, the derived configuration has targetDirectory
`./`, not `.` as the claim states (name and useCurrentDirectory are as
claimed). -/
theorem c4_targetdir_not_dot :
    deriveConfig dotModel "/home/sandbox"
      = Except.ok ⟨"sandbox", "sandbox", "web-api", "stdlib", "./", true⟩ ∧
    ("./" : String) ≠ "." := by
  constructor
  · rfl
  · decide

/-- C4 (amended): when the confirmed project name is the sentinel `.`,
the derived configuration has useCurrentDirectory = true, targetDirectory
= `./`, and project name equal to the base name of the current working
directory; the derivation fails with an error when the working directory
resolves to the filesystem root. -/
theorem c4_amended_dot_derivation (m : Model) (cwd : String)
    (h : m.projectName = ".") :
    (filepathBase cwd ≠ "." ∧ filepathBase cwd ≠ "/" →
      deriveConfig m cwd = Except.ok
        ⟨filepathBase cwd, filepathBase cwd, "web-api", m.selectedPackage, "./", true⟩) ∧
    (filepathBase cwd = "/" →
      deriveConfig m cwd = Except.error
        "failed to get current directory name: cannot determine project name from root directory") := by
  constructor
  · rintro ⟨h1, h2⟩
    unfold deriveConfig GetCurrentDirName
    rw [if_pos h, if_neg (by simp [h1, h2])]
  · intro h1
    unfold deriveConfig GetCurrentDirName
    rw [if_pos h, if_pos (Or.inr h1)]
    rfl

/-- C4 (amended) witness: the derivation at /home/sandbox and at the
root. -/
theorem c4_amended_dot_derivation_witness :
    deriveConfig dotModel "/home/sandbox"
      = Except.ok ⟨"sandbox", "sandbox", "web-api", "stdlib", "./", true⟩ ∧
    deriveConfig dotModel "/"
      = Except.error
        "failed to get current directory name: cannot determine project name from root directory" :=
  ⟨(c4_amended_dot_derivation dotModel "/home/sandbox" rfl).1 (by decide),
   (c4_amended_dot_derivation dotModel "/" rfl).2 (by decide)⟩

/-- C5 (code bug, evaluated at the failing inputs): an unknown
(appType, packageVariant) pair is reported with the
`template directory is empty or invalid` message — the `template not
found` branch guards `fs.Sub`, which on an `embed.FS` cannot fail for a
well-formed path, so the two causes are not distinguishable — and a pair
that resolves to a set with zero files is not rejected at all: resolution
returns the empty set successfully, despite the source's own comment that
it verifies at least one file can be read. -/
theorem c5_resolution_bug :
    getTemplateFS [("templates/web-api-stdlib", [TEntry.file "go.mod" "module x"])] "web-api" "nope"
      = Except.error "template directory is empty or invalid: templates/web-api-nope" ∧
    getTemplateFS [("templates/web-api-empty", [])] "web-api" "empty" = Except.ok [] := by
  exact ⟨rfl, rfl⟩

/-- C6 (counterexample): confirming a valid buffer (`demo`) in the
NameInput stage sets the selected name and advances to TypeSelect, but the
buffer is NOT cleared: it still holds `demo`. -/
theorem c6_buffer_not_cleared :
    (Update demoBufferModel KeyMsg.enter "/h" [] ⟨[], []⟩).model.currentStage
      = Stage.stage2AppType ∧
    (Update demoBufferModel KeyMsg.enter "/h" [] ⟨[], []⟩).model.projectName = "demo" ∧
    (Update demoBufferModel KeyMsg.enter "/h" [] ⟨[], []⟩).model.inputValue = "demo" ∧
    ("demo" : String) ≠ "" := by
  refine ⟨rfl, rfl, rfl, by decide⟩

/-- C6 (amended): in the NameInput stage, a confirm event on a buffer
that passes validation sets the selected name to the buffer contents and
moves the state to TypeSelect, leaving the buffer (and everything else)
unchanged; a confirm on a buffer that fails validation records the
validation error and changes nothing else — stage and buffer remain. -/
theorem c6_amended_confirm (m : Model) (cwd : String) (reg : Registry) (fs : FSState)
    (hst : m.currentStage = Stage.stage1ProjectName) :
    (validateProjectName m.inputValue = none →
      (Update m KeyMsg.enter cwd reg fs).model =
        { m with projectName := m.inputValue, currentStage := Stage.stage2AppType }) ∧
    (∀ e, validateProjectName m.inputValue = some e →
      (Update m KeyMsg.enter cwd reg fs).model = { m with generationError := some e }) := by
  have hstep : Update m KeyMsg.enter cwd reg fs = ⟨updateStage1 m KeyMsg.enter, false, fs⟩ := by
    unfold Update
    rw [if_neg (by simp [keyString]), hst]
  constructor
  · intro hv
    rw [hstep]
    show updateStage1 m KeyMsg.enter = _
    unfold updateStage1
    rw [hv]
  · intro e hv
    rw [hstep]
    show updateStage1 m KeyMsg.enter = _
    unfold updateStage1
    rw [hv]

/-- C6 (amended) witness: the valid buffer `demo` and the invalid buffer
`a b`. -/
theorem c6_amended_confirm_witness :
    (Update demoBufferModel KeyMsg.enter "/h" [] ⟨[], []⟩).model =
      { demoBufferModel with projectName := "demo", currentStage := Stage.stage2AppType } ∧
    (Update invalidBufferModel KeyMsg.enter "/h" [] ⟨[], []⟩).model =
      { invalidBufferModel with generationError := some "project name must contain only letters, numbers, hyphens, and underscores" } :=
  ⟨(c6_amended_confirm demoBufferModel "/h" [] ⟨[], []⟩ rfl).1 rfl,
   (c6_amended_confirm invalidBufferModel "/h" [] ⟨[], []⟩ rfl).2
     "project name must contain only letters, numbers, hyphens, and underscores" rfl⟩

/-- C7 (code bug, evaluated at the failing input): a NameInput-stage
session with a pending error renders the error, but the retained model is
unchanged — `View` and `renderStage1` have value receivers, so the
`generationError = nil` assignment in `renderStage1` only touches the
method's local copy, which is discarded — and rendering the retained
session again, with no new error, displays the error a second time.
There is no display-once behaviour. -/
theorem c7_error_redisplayed_bug :
    strContains (viewStep errorStage1Model).1 "Error: boom" = true ∧
    (viewStep errorStage1Model).2 = errorStage1Model ∧
    strContains (viewStep ((viewStep errorStage1Model).2)).1 "Error: boom" = true ∧
    (renderStage1 errorStage1Model).2.generationError = none := by
  refine ⟨by decide, rfl, by decide, rfl⟩

/-- C8 (code bug, evaluated at the failing input): in the Success stage
the quit keys `q` and `ctrl+c` are matched by the outer key switch, whose
body does nothing when the stage is Success, so they fall through to
`return m, nil`: the session does NOT terminate on them — the model is
returned unchanged with no quit command — while any other key (here `x`)
does terminate, contradicting "every key event ends the session" and the
screen's own "Press any key to exit". -/
theorem c8_success_quit_key_bug :
    Update successModel (KeyMsg.runes "q") "/h" [] ⟨[], []⟩
      = ⟨successModel, false, ⟨[], []⟩⟩ ∧
    Update successModel KeyMsg.ctrlC "/h" [] ⟨[], []⟩
      = ⟨successModel, false, ⟨[], []⟩⟩ ∧
    (Update successModel (KeyMsg.runes "x") "/h" [] ⟨[], []⟩).quit = true := by
  refine ⟨rfl, rfl, rfl⟩

/-- C9: a template-set file whose content contains no placeholder (no
action opener) is written byte-identical to the target path, and the
`.tmpl` marker is stripped from the output path exactly when the source
path carried that suffix. -/
theorem c9_literal_roundtrip (sourcePath targetPath content : String)
    (config : ProjectConfig) (fs : FSState)
    (h : hasOpenDelim content.toList = false) :
    copyFile sourcePath content targetPath config fs =
      (writeFile fs
        (if hasSuffix sourcePath ".tmpl" then trimSuffix targetPath ".tmpl" else targetPath)
        content, none) := by
  have hp : processTemplate content config = Except.ok content :=
    processTemplate_no_delim content config h
  unfold copyFile
  split_ifs with h1
  · rw [hp]
  · rfl

/-- C9 witness: a literal `.tmpl` file and a literal plain file. -/
theorem c9_literal_roundtrip_witness :
    hasOpenDelim ("module example".toList) = false ∧
    copyFile "go.mod.tmpl" "module example" "demo/go.mod.tmpl" demoConfig ⟨[], []⟩
      = (⟨[], [("demo/go.mod", "module example")]⟩, none) ∧
    copyFile "README.md" "hello" "demo/README.md" demoConfig ⟨[], []⟩
      = (⟨[], [("demo/README.md", "hello")]⟩, none) :=
  ⟨by decide,
   Eq.trans (c9_literal_roundtrip "go.mod.tmpl" "demo/go.mod.tmpl" "module example"
     demoConfig ⟨[], []⟩ (by decide)) rfl,
   Eq.trans (c9_literal_roundtrip "README.md" "demo/README.md" "hello"
     demoConfig ⟨[], []⟩ (by decide)) rfl⟩

/-- C10: every configuration the wizard derives for the generator has
AppType equal to the literal "web-api" — the application type the user
selected is never consulted, as the derivation is invariant under any
change of selectedAppType — and its ModuleName always equals its
ProjectName. -/
theorem c10_config_constants (m : Model) (cwd : String) (s : String)
    (cfg : ProjectConfig) (h : deriveConfig m cwd = Except.ok cfg) :
    cfg.AppType = "web-api" ∧ cfg.ModuleName = cfg.ProjectName ∧
    deriveConfig { m with selectedAppType := s } cwd = deriveConfig m cwd := by
  refine ⟨?_, ?_, rfl⟩ <;>
  · unfold deriveConfig at h
    split_ifs at h with hdot
    · cases hg : GetCurrentDirName cwd with
      | error e => rw [hg] at h; simp at h
      | ok d =>
        rw [hg] at h
        simp only [Except.ok.injEq] at h
        subst h
        rfl
    · simp only [Except.ok.injEq] at h
      subst h
      rfl

/-- C10 witness: a plain-name session, with the app-type invariance
checked at `selectedAppType` set to CLI. -/
theorem c10_config_constants_witness :
    deriveConfig demoModel "/h"
      = Except.ok ⟨"demo", "demo", "web-api", "stdlib", "./demo/", false⟩ ∧
    (⟨"demo", "demo", "web-api", "stdlib", "./demo/", false⟩ : ProjectConfig).AppType
      = "web-api" ∧
    (⟨"demo", "demo", "web-api", "stdlib", "./demo/", false⟩ : ProjectConfig).ModuleName
      = (⟨"demo", "demo", "web-api", "stdlib", "./demo/", false⟩ : ProjectConfig).ProjectName ∧
    deriveConfig { demoModel with selectedAppType := "CLI" } "/h"
      = deriveConfig demoModel "/h" := by
  have h := c10_config_constants demoModel "/h" "CLI"
    ⟨"demo", "demo", "web-api", "stdlib", "./demo/", false⟩ rfl
  exact ⟨rfl, h.1, h.2.1, h.2.2⟩

end GoTen
